import Mathlib

/-!
Shallow embedding of the analysis-engine surface of the AI_land repository.

The repository ships the engine as TypeScript mock/simulation code:
* `NVAPIService` (src/unnamed/part_001): `simulatePropertyValuation`,
  `calculateBaseValue`, `getBasePriceForLocation`, `generateComparables`,
  `simulateMarketData`, `generateLandAnalysisResponse` and its helpers;
* `PropertyValuationPage.onSubmit` (frontend): the mock valuation result;
* `BeneficiaryScoringPage.onSubmit` (src/unnamed/part_008): the mock score;
* `PropertyRecommendationsPage.onSubmit` (frontend): the mock ranked list.

Conventions of the embedding:
* JavaScript numbers are modelled as exact rationals (`ℚ`).
* Every call of `Math.random()` is made an explicit input draw, a rational
  in `[0, 1)`; one named field (or indexed function) per call site, in the
  order the calls occur.  `IsDraw q` states the `[0, 1)` range.
* `Math.floor` is `Int.floor`, `Math.round x` is `⌊x + 1/2⌋`, and
  `Number(x.toFixed(d))` is `toFixed d x` (scaled half-up rounding, the
  idealised decimal rounding of the spec of `toFixed`).
* Wall-clock fields (`Date.now()` identifiers, ISO timestamps) are outside
  the pure embedding and are omitted from the records; display-only
  interpolated description strings are likewise omitted where noted.
-/

/-- Range of a value returned by a call of `Math.random()`. -/
def IsDraw (q : ℚ) : Prop := 0 ≤ q ∧ q < 1

/-- JavaScript `Math.floor` on an exact rational. -/
def jsFloor (q : ℚ) : ℤ := ⌊q⌋

/-- JavaScript `Math.round` on an exact rational: floor of `x + 1/2`. -/
def jsRound (q : ℚ) : ℤ := ⌊q + 1/2⌋

/-- JavaScript `Number(x.toFixed(d))`: round to `d` decimal digits, ties up. -/
def toFixed (d : ℕ) (q : ℚ) : ℚ := (⌊q * 10 ^ d + 1/2⌋ : ℚ) / 10 ^ d

/-! ## NVAPIService helpers (src/unnamed/part_001) -/

/-- One step of the JavaScript `location.replace(/\s+/g, "_")`: every maximal
run of whitespace becomes a single underscore.  The flag records whether the
previous character was whitespace. -/
def squashWsAux : Bool → List Char → List Char
  | _, [] => []
  | prevWs, c :: cs =>
      if c.isWhitespace then
        if prevWs then squashWsAux true cs
        else '_' :: squashWsAux true cs
      else c :: squashWsAux false cs

/-- The `locationPrices` record literal of `getBasePriceForLocation`. -/
def locationPrices : List (String × ℚ) :=
  [("chicago", 350000), ("naperville", 425000), ("schaumburg", 380000),
   ("evanston", 450000), ("oak_park", 400000)]

/-- `NVAPIService.getBasePriceForLocation`: lower-case the address, replace
whitespace runs by underscores, look the key up, default 375000. -/
def getBasePriceForLocation (location : String) : ℚ :=
  let key := String.mk (squashWsAux false location.toLower.data)
  match locationPrices.lookup key with
  | some p => p
  | none => 375000

/-- The fields of the `propertyData` payload used by `NVAPIService`. -/
structure PropertyData where
  address : String
  sqft : ℚ
  bedrooms : ℚ
  bathrooms : ℚ
  yearBuilt : ℚ

/-- `NVAPIService.calculateBaseValue`.  Note that `basePrice` is computed
from the address exactly as in the source but does not occur in the returned
expression. -/
def calculateBaseValue (propertyData : PropertyData) : ℚ :=
  let basePrice := getBasePriceForLocation propertyData.address
  let sqftValue := propertyData.sqft * 150
  let bedroomValue := propertyData.bedrooms * 15000
  let bathroomValue := propertyData.bathrooms * 10000
  let ageAdjustment := max 0 (1 - (2024 - propertyData.yearBuilt) * (5/1000))
  (sqftValue + bedroomValue + bathroomValue) * ageAdjustment

/-- A comparable sale produced by `generateComparables`. -/
structure Comparable where
  address : String
  price : ℤ
  sqft : ℤ
  bedrooms : ℚ
  bathrooms : ℚ
  distance : ℚ

/-- `NVAPIService.generateComparables`; `comp i k` is the `k`-th
`Math.random()` draw of loop iteration `i` (variation, address number,
bedrooms, bathrooms, distance, in call order). -/
def generateComparables (propertyData : PropertyData) (comp : ℕ → ℕ → ℚ)
    (count : ℕ) : List Comparable :=
  (List.range count).map (fun i =>
    let variation := (comp i 0 - 1/2) * (3/10)
    { address := toString (jsFloor (comp i 1 * 9999)) ++ " Comparable St"
      price := jsRound (calculateBaseValue propertyData * (1 + variation))
      sqft := jsRound (propertyData.sqft * (1 + variation * (1/2)))
      bedrooms := propertyData.bedrooms + (jsFloor (comp i 2 * 3 - 1) : ℚ)
      bathrooms := propertyData.bathrooms + (jsFloor (comp i 3 * 2 - 1/2) : ℚ)
      distance := toFixed 1 (comp i 4 * 2 + 1/10) })

/-- The `MarketTrend` record (timestamp omitted: wall clock). -/
structure MarketTrend where
  location : String
  averagePrice : ℤ
  priceChange : ℤ
  priceChangePercent : ℚ
  inventory : ℤ
  daysOnMarket : ℤ

/-- `NVAPIService.simulateMarketData`; `m k` is the `k`-th `Math.random()`
draw (variation, inventory, days on market). -/
def simulateMarketData (location : String) (m : ℕ → ℚ) : MarketTrend :=
  let basePrice := getBasePriceForLocation location
  let variation := (m 0 - 1/2) * (1/10)
  { location := location
    averagePrice := jsRound (basePrice * (1 + variation))
    priceChange := jsRound (basePrice * variation * (1/10))
    priceChangePercent := toFixed 2 (variation * 10)
    inventory := jsRound (m 1 * 500 + 100)
    daysOnMarket := jsRound (m 2 * 60 + 20) }

/-- The call-time `Math.random()` draws of one `simulatePropertyValuation`
call: the confidence draw, the comparable-generation draws and the
market-data draws. -/
structure NvDraws where
  confidenceDraw : ℚ
  comp : ℕ → ℕ → ℚ
  market : ℕ → ℚ

/-- The `PropertyValuation` record (propertyId omitted: `Date.now()`). -/
structure PropertyValuation where
  estimatedValue : ℤ
  confidence : ℚ
  comparables : List Comparable
  marketTrends : MarketTrend

/-- `NVAPIService.simulatePropertyValuation`. -/
def simulatePropertyValuation (propertyData : PropertyData) (rd : NvDraws) :
    PropertyValuation :=
  let baseValue := calculateBaseValue propertyData
  let confidence := rd.confidenceDraw * (3/10) + 7/10
  { estimatedValue := jsRound baseValue
    confidence := toFixed 2 confidence
    comparables := generateComparables propertyData rd.comp 5
    marketTrends := simulateMarketData propertyData.address rd.market }

/-! ## Land analysis (src/unnamed/part_001, `generateLandAnalysisResponse`) -/

/-- One entry of the `keyFactors` list. -/
structure KeyFactor where
  factor : String
  score : ℚ
  impact : String
  description : String

/-- `NVAPIService.generateKeyFactors`.  The `overallScore` parameter is
unused, exactly as in the source; `r1 … r6` are the six `Math.random()`
draws, one per factor.  Each mapped entry rounds the raw score to one
decimal and recomputes `impact` from the raw score; the list is cut to the
first four entries (`slice(0, 4)`). -/
def generateKeyFactors (overallScore : ℚ) (r1 r2 r3 r4 r5 r6 : ℚ) :
    List KeyFactor :=
  let factors : List (String × ℚ × String) :=
    [("Safety & Crime Rate", r1 * 30 + 70,
        "Low crime rate with good police response times"),
     ("School Quality", r2 * 25 + 75, "Highly rated schools in the district"),
     ("Market Trends", r3 * 40 + 60,
        "Steady price appreciation over past 3 years"),
     ("Transportation", r4 * 35 + 65, "Good public transit and highway access"),
     ("Amenities", r5 * 30 + 70, "Shopping, dining, and recreation nearby"),
     ("Future Development", r6 * 50 + 50, "Planned infrastructure improvements")]
  (factors.map (fun f =>
    { factor := f.1
      score := toFixed 1 f.2.1
      impact := if f.2.1 ≥ 75 then "positive"
                else if f.2.1 ≥ 60 then "neutral" else "negative"
      description := f.2.2 })).take 4

/-- `NVAPIService.generateMarketInsightsArray`. -/
def generateMarketInsightsArray (location : String) : List String :=
  [location ++ " has shown 8.2% price appreciation over the past year",
   "Inventory levels are 23% below historical averages, indicating strong demand",
   "Average days on market decreased to 18 days, down from 32 days last year",
   "New construction permits increased by 15%, suggesting growing neighborhood interest",
   "Rental yields in the area average 6.8%, attractive for investment properties"]

/-- `NVAPIService.generateRiskFactors`. -/
def generateRiskFactors : List String :=
  ["Property taxes may increase due to rising assessed values",
   "Traffic congestion during peak hours on main roads",
   "Limited parking availability in downtown areas",
   "Seasonal flooding risk in low-lying areas during heavy rains"]

/-- `NVAPIService.generateOpportunities`. -/
def generateOpportunities : List String :=
  ["Upcoming transit expansion will improve connectivity",
   "New shopping center development planned within 2 miles",
   "Strong job growth in tech sector driving housing demand",
   "Renovation potential to increase property value by 15-20%"]

/-- One entry of `generateComparableProperties`. -/
structure ComparableProperty where
  address : String
  price : ℚ
  score : ℚ
  distance : ℚ

/-- `NVAPIService.generateComparableProperties` (a constant list). -/
def generateComparableProperties : List ComparableProperty :=
  [{ address := "1234 Maple Street", price := 425000, score := 87.5, distance := 0.3 },
   { address := "5678 Oak Avenue", price := 445000, score := 91.2, distance := 0.7 },
   { address := "9012 Pine Road", price := 398000, score := 82.8, distance := 1.1 },
   { address := "3456 Elm Drive", price := 465000, score := 89.6, distance := 0.9 }]

/-- The `predictedValueChange` sub-record. -/
structure PredictedValueChange where
  oneYear : ℚ
  threeYear : ℚ
  fiveYear : ℚ

/-- The call-time `Math.random()` draws of one `generateLandAnalysisResponse`
call, in call order: overall score, confidence level, the six key-factor
draws, and the three predicted-value-change draws. -/
structure LandDraws where
  overallDraw : ℚ
  confidenceDraw : ℚ
  kf1 : ℚ
  kf2 : ℚ
  kf3 : ℚ
  kf4 : ℚ
  kf5 : ℚ
  kf6 : ℚ
  oneYearDraw : ℚ
  threeYearDraw : ℚ
  fiveYearDraw : ℚ

/-- The `LandAnalysisResponse` record (analysisId omitted: `Date.now()`). -/
structure LandAnalysisResponse where
  location : String
  overallScore : ℚ
  recommendation : String
  confidenceLevel : ℚ
  keyFactors : List KeyFactor
  marketInsights : List String
  riskFactors : List String
  opportunities : List String
  predictedValueChange : PredictedValueChange
  comparable_properties : List ComparableProperty

/-- `NVAPIService.generateLandAnalysisResponse`.  The regular-expression
extraction `extractLocationFromMessage(message)` is passed in as
`locationMatch` (string plumbing outside the numeric core; the parallel
`extractPropertyDetailsFromMessage` result is unused by the source).  The
JavaScript defaults `locationMatch || "Property Location"` and
`locationMatch || "area"` treat both a missing match and an empty string as
falsy. -/
def generateLandAnalysisResponse (locationMatch : Option String)
    (rd : LandDraws) : LandAnalysisResponse :=
  let overallScore : ℚ := rd.overallDraw * 40 + 60
  let confidenceLevel : ℚ := rd.confidenceDraw * (3/10) + 7/10
  let loc := match locationMatch with
    | some s => if s = "" then none else some s
    | none => none
  { location := loc.getD "Property Location"
    overallScore := toFixed 1 overallScore
    recommendation :=
      if overallScore ≥ 80 then "buy"
      else if overallScore ≥ 65 then "hold" else "avoid"
    confidenceLevel := toFixed 2 confidenceLevel
    keyFactors :=
      generateKeyFactors overallScore rd.kf1 rd.kf2 rd.kf3 rd.kf4 rd.kf5 rd.kf6
    marketInsights := generateMarketInsightsArray (loc.getD "area")
    riskFactors := generateRiskFactors
    opportunities := generateOpportunities
    predictedValueChange :=
      { oneYear := toFixed 1 (rd.oneYearDraw * 10 - 2)
        threeYear := toFixed 1 (rd.threeYearDraw * 20 + 5)
        fiveYear := toFixed 1 (rd.fiveYearDraw * 35 + 15) }
    comparable_properties := generateComparableProperties }

/-! ## PropertyValuationPage.onSubmit (frontend mock valuation) -/

/-- The `PropertyValuationForm` fields. -/
structure PropertyValuationForm where
  address : String
  property_type : String
  beds : ℚ
  baths : ℚ
  sqft : ℚ
  year_built : ℚ
  lot_size : ℚ

/-- One feature attribution of the mock explanation (the interpolated
`impact_description` display string is omitted). -/
structure FeatureAttribution where
  feature_name : String
  attribution_value : ℚ
  feature_value : ℚ
  deriving DecidableEq

/-- The `explanation` sub-record of the mock valuation result. -/
structure ValuationExplanation where
  base_value : ℚ
  prediction_value : ℚ
  top_positive_features : List FeatureAttribution
  top_negative_features : List FeatureAttribution
  deriving DecidableEq

/-- The call-time `Math.random()` draws of one `onSubmit` call of
`PropertyValuationPage`, in call order: id, predicted value, value
uncertainty, confidence score. -/
structure ValuationDraws where
  idDraw : ℚ
  valueDraw : ℚ
  uncertaintyDraw : ℚ
  confidenceDraw : ℚ

/-- The `ValuationResult` record of the page (valuation_date omitted:
wall clock). -/
structure ValuationResult where
  id : ℤ
  predicted_value : ℚ
  value_uncertainty : ℚ
  price_per_sqft : ℚ
  comparable_sales_count : ℕ
  days_on_market_avg : ℚ
  confidence_score : ℚ
  explanation : ValuationExplanation

/-- The `mockResult` built by `PropertyValuationPage.onSubmit`. -/
def mockValuationResult (data : PropertyValuationForm) (rd : ValuationDraws) :
    ValuationResult :=
  { id := jsFloor (rd.idDraw * 10000)
    predicted_value := 275000 + rd.valueDraw * 100000
    value_uncertainty := 15000 + rd.uncertaintyDraw * 10000
    price_per_sqft := 183.33
    comparable_sales_count := 12
    days_on_market_avg := 45.5
    confidence_score := 0.85 + rd.confidenceDraw * (1/10)
    explanation :=
      { base_value := 192500
        prediction_value := 275000
        top_positive_features :=
          [{ feature_name := "sqft", attribution_value := 45000,
             feature_value := data.sqft },
           { feature_name := "location", attribution_value := 25000,
             feature_value := 0.85 },
           { feature_name := "beds", attribution_value := 12000,
             feature_value := data.beds }]
        top_negative_features :=
          [{ feature_name := "age", attribution_value := -8000,
             feature_value := 2024 - data.year_built }] } }

/-- The signed sum of all attributions listed in an explanation (the
quantity the additive-decomposition invariant of the spec talks about). -/
def attributionSum (e : ValuationExplanation) : ℚ :=
  ((e.top_positive_features ++ e.top_negative_features).map
    (fun f => f.attribution_value)).sum

/-! ## BeneficiaryScoringPage.onSubmit (src/unnamed/part_008) -/

/-- The five named custom weights of the scoring form. -/
structure CustomWeights where
  value : ℚ
  school : ℚ
  crime_inv : ℚ
  env_inv : ℚ
  employer_proximity : ℚ
  deriving DecidableEq

/-- The `BeneficiaryScoringForm` fields used by the mock. -/
structure BeneficiaryScoringForm where
  address : String
  custom_weights : CustomWeights

/-- The `score_components` sub-record of the mock scoring result. -/
structure ScoreComponents where
  value : ℚ
  school : ℚ
  crime : ℚ
  env : ℚ
  employer : ℚ

/-- One entry of the mock `component_explanations` list (the interpolated
`description` display string is omitted). -/
structure ComponentExplanation where
  component : String
  raw_score : ℚ
  weight : ℚ
  weighted_contribution : ℚ

/-- The `explanation` sub-record of the mock scoring result. -/
structure ScoringExplanation where
  overall_score : ℚ
  component_explanations : List ComponentExplanation

/-- The call-time `Math.random()` draws of one `onSubmit` call of
`BeneficiaryScoringPage`, in call order: id, the six top-level scores, the
five weighted score components. -/
structure ScoringDraws where
  idDraw : ℚ
  overallDraw : ℚ
  valueDraw : ℚ
  schoolDraw : ℚ
  safetyDraw : ℚ
  envDraw : ℚ
  accessDraw : ℚ
  compValueDraw : ℚ
  compSchoolDraw : ℚ
  compCrimeDraw : ℚ
  compEnvDraw : ℚ
  compEmployerDraw : ℚ

/-- The `ScoringResult` record of the page (calculated_at omitted:
wall clock). -/
structure ScoringResult where
  id : ℤ
  overall_score : ℚ
  value_score : ℚ
  school_score : ℚ
  safety_score : ℚ
  environmental_score : ℚ
  accessibility_score : ℚ
  scoring_weights : CustomWeights
  score_components : ScoreComponents
  model_version : String
  explanation : ScoringExplanation

/-- The `mockResult` built by `BeneficiaryScoringPage.onSubmit`. -/
def mockScoringResult (data : BeneficiaryScoringForm) (rd : ScoringDraws) :
    ScoringResult :=
  { id := jsFloor (rd.idDraw * 10000)
    overall_score := 65 + rd.overallDraw * 30
    value_score := 70 + rd.valueDraw * 25
    school_score := 80 + rd.schoolDraw * 20
    safety_score := 60 + rd.safetyDraw * 30
    environmental_score := 85 + rd.envDraw * 15
    accessibility_score := 75 + rd.accessDraw * 20
    scoring_weights := data.custom_weights
    score_components :=
      { value := data.custom_weights.value * (0.7 + rd.compValueDraw * 0.3)
        school := data.custom_weights.school * (0.8 + rd.compSchoolDraw * 0.2)
        crime := data.custom_weights.crime_inv * (0.6 + rd.compCrimeDraw * 0.3)
        env := data.custom_weights.env_inv * (0.85 + rd.compEnvDraw * 0.15)
        employer :=
          data.custom_weights.employer_proximity *
            (0.75 + rd.compEmployerDraw * 0.2) }
    model_version := "2.0.0"
    explanation :=
      { overall_score := 78.2
        component_explanations :=
          [{ component := "school", raw_score := 85.0,
             weight := data.custom_weights.school,
             weighted_contribution := 6.8 },
           { component := "value", raw_score := 75.0,
             weight := data.custom_weights.value,
             weighted_contribution := 6.0 },
           { component := "safety", raw_score := 70.0,
             weight := data.custom_weights.crime_inv,
             weighted_contribution := 4.2 },
           { component := "environment", raw_score := 88.0,
             weight := data.custom_weights.env_inv,
             weighted_contribution := 4.4 },
           { component := "accessibility", raw_score := 72.0,
             weight := data.custom_weights.employer_proximity,
             weighted_contribution := 5.04 }] } }

/-- The `beneficiary-score` page operation as an outcome: the source
`onSubmit` has no validation and no failure path for the mock computation
(its catch branch is unreachable for the mock), so the call always succeeds
with the mock result. -/
def beneficiaryScore (data : BeneficiaryScoringForm) (rd : ScoringDraws) :
    Except String ScoringResult :=
  Except.ok (mockScoringResult data rd)

/-- The normalized-weighted-sum invariant claimed by the spec for a scoring
result, stated against the five component scores and the weights the result
carries: overall = Σ(component × weight) / Σ(weight). -/
def WeightedNormalizedSum (res : ScoringResult) : Prop :=
  res.overall_score =
    (res.value_score * res.scoring_weights.value +
     res.school_score * res.scoring_weights.school +
     res.safety_score * res.scoring_weights.crime_inv +
     res.environmental_score * res.scoring_weights.env_inv +
     res.accessibility_score * res.scoring_weights.employer_proximity) /
    (res.scoring_weights.value + res.scoring_weights.school +
     res.scoring_weights.crime_inv + res.scoring_weights.env_inv +
     res.scoring_weights.employer_proximity)

/-! ## PropertyRecommendationsPage.onSubmit (frontend mock recommender) -/

/-- The optional `user_preferences` filter block of the recommendation
form. -/
structure UserPreferences where
  min_beds : Option ℚ
  max_beds : Option ℚ
  min_baths : Option ℚ
  max_baths : Option ℚ
  min_price : Option ℚ
  max_price : Option ℚ
  property_type : Option String
  min_sqft : Option ℚ
  max_sqft : Option ℚ

/-- The `RecommendationForm` fields. -/
structure RecommendationForm where
  search_type : String
  property_id : Option ℤ
  location : Option (ℚ × ℚ)
  address : Option String
  radius_km : Option ℚ
  max_recommendations : ℕ
  recommendation_type : String
  user_preferences : Option UserPreferences

/-- The `recommended_property` sub-record of one mock recommendation. -/
structure RecommendedProperty where
  id : ℤ
  predicted_value : ℚ
  beds : ℤ
  baths : ℤ
  sqft : ℤ
  year_built : ℤ
  address : String
  property_type : String

/-- One mock `PropertyRecommendation` (created_at omitted: wall clock). -/
structure PropertyRecommendation where
  id : ℤ
  recommended_property : RecommendedProperty
  recommendation_type : String
  similarity_score : ℚ
  confidence_score : ℚ
  rank_position : ℤ
  recommendation_reason : String

/-- The call-time `Math.random()` draws of one generated candidate, in call
order: property id, predicted value, beds, baths, sqft, year built, the four
address draws, similarity, confidence, reason. -/
structure RecItemDraws where
  propIdDraw : ℚ
  valueDraw : ℚ
  bedsDraw : ℚ
  bathsDraw : ℚ
  sqftDraw : ℚ
  yearDraw : ℚ
  addrNumDraw : ℚ
  streetDraw : ℚ
  cityDraw : ℚ
  stateDraw : ℚ
  simDraw : ℚ
  confDraw : ℚ
  reasonDraw : ℚ

/-- The candidate generated for index `index` by the `Array.from` callback
of `PropertyRecommendationsPage.onSubmit`.  Note `rank_position` is assigned
from the generation index, before any sorting. -/
def mkRecommendation (data : RecommendationForm) (index : ℕ)
    (rd : RecItemDraws) : PropertyRecommendation :=
  { id := (index : ℤ) + 1
    recommended_property :=
      { id := jsFloor (rd.propIdDraw * 10000)
        predicted_value := 200000 + rd.valueDraw * 500000
        beds := jsFloor (rd.bedsDraw * 4) + 2
        baths := jsFloor (rd.bathsDraw * 3) + 1
        sqft := jsFloor (rd.sqftDraw * 2000) + 1000
        year_built := jsFloor (rd.yearDraw * 50) + 1970
        address :=
          toString (jsFloor (rd.addrNumDraw * 9999) + 1) ++ " " ++
          (["Main", "Oak", "Pine", "Elm", "Cedar"].getD
            (jsFloor (rd.streetDraw * 5)).toNat "") ++ " St, " ++
          (["Chicago", "Austin", "Denver", "Seattle", "Portland"].getD
            (jsFloor (rd.cityDraw * 5)).toNat "") ++ ", " ++
          (["IL", "TX", "CO", "WA", "OR"].getD
            (jsFloor (rd.stateDraw * 5)).toNat "")
        property_type := "residential" }
    recommendation_type := data.recommendation_type
    similarity_score := 0.6 + rd.simDraw * 0.4
    confidence_score := 0.7 + rd.confDraw * 0.3
    rank_position := (index : ℤ) + 1
    recommendation_reason :=
      ["Similar property characteristics", "Great investment potential",
       "Excellent location match", "Strong market performance",
       "High user rating similarity"].getD (jsFloor (rd.reasonDraw * 5)).toNat "" }

/-- Stable insertion for the descending-similarity insertion sort.  The
inserted element `x` was generated earlier than every element of the list it
is inserted into; it passes only elements of strictly greater similarity and
lands before the first element of less-or-equal similarity, so elements of
equal similarity keep generation order — the semantics of the stable
`Array.prototype.sort` with the comparator
`(a, b) => b.similarity_score - a.similarity_score`. -/
def insertDescBySim (x : PropertyRecommendation) :
    List PropertyRecommendation → List PropertyRecommendation
  | [] => [x]
  | y :: ys =>
      if x.similarity_score < y.similarity_score then y :: insertDescBySim x ys
      else x :: y :: ys

/-- Stable sort by descending `similarity_score`, the effect of the
`.sort((a, b) => b.similarity_score - a.similarity_score)` call: the head
(the earliest generated element) is inserted into the stably sorted tail,
landing before any tail element of equal similarity. -/
def sortDescBySim :
    List PropertyRecommendation → List PropertyRecommendation
  | [] => []
  | x :: xs => insertDescBySim x (sortDescBySim xs)

/-- `PropertyRecommendationsPage.onSubmit`: generate `max_recommendations`
candidates (draws `rds i` for index `i`) and sort them by descending
similarity. -/
def onSubmitRecommendations (data : RecommendationForm)
    (rds : ℕ → RecItemDraws) : List PropertyRecommendation :=
  sortDescBySim
    ((List.range data.max_recommendations).map
      (fun i => mkRecommendation data i (rds i)))

/-- The rank discipline claimed by the spec for a returned list: the ranks,
read in result order, start at 1 and strictly increase. -/
def RanksStartAt1StrictMono (l : List ℤ) : Prop :=
  (l = [] ∨ l.head? = some 1) ∧ l.Chain' (· < ·)

/-- A candidate violating a hard preference filter of the request: beds
below `min_beds` or price above `max_price` (the two hard filters named by
the claim). -/
def ViolatesHardFilter (p : Option UserPreferences)
    (c : RecommendedProperty) : Prop :=
  match p with
  | none => False
  | some prefs =>
      (∃ mb, prefs.min_beds = some mb ∧ (c.beds : ℚ) < mb) ∨
      (∃ mp, prefs.max_price = some mp ∧ mp < c.predicted_value)

/-! ## Concrete inputs used by witnesses and counterexamples -/

/-- The documented example property, addressed in Chicago. -/
def pd0 : PropertyData :=
  { address := "Chicago", sqft := 1500, bedrooms := 3, bathrooms := 2,
    yearBuilt := 2000 }

/-- The same physical property, addressed in Evanston. -/
def pdEvanston : PropertyData :=
  { address := "Evanston", sqft := 1500, bedrooms := 3, bathrooms := 2,
    yearBuilt := 2000 }

/-- The default valuation form of the page. -/
def vForm0 : PropertyValuationForm :=
  { address := "123 Main St", property_type := "residential", beds := 3,
    baths := 2, sqft := 1500, year_built := 2000, lot_size := 1/4 }

/-- A call whose four `Math.random()` draws all return 0. -/
def vDraws0 : ValuationDraws := ⟨0, 0, 0, 0⟩

/-- A call whose four `Math.random()` draws all return 1/2. -/
def vDrawsHalf : ValuationDraws := ⟨1/2, 1/2, 1/2, 1/2⟩

/-- An NVAPI valuation call whose draws all return 0. -/
def nvDraws0 : NvDraws := ⟨0, fun _ _ => 0, fun _ => 0⟩

/-- An NVAPI valuation call whose confidence draw returns 1/2. -/
def nvDrawsHalf : NvDraws := ⟨1/2, fun _ _ => 0, fun _ => 0⟩

/-- A scoring form whose five custom weights are all 1. -/
def sFormOnes : BeneficiaryScoringForm :=
  { address := "Chicago", custom_weights := ⟨1, 1, 1, 1, 1⟩ }

/-- A scoring form whose five custom weights are all 0. -/
def sFormZero : BeneficiaryScoringForm :=
  { address := "Chicago", custom_weights := ⟨0, 0, 0, 0, 0⟩ }

/-- A scoring call whose twelve `Math.random()` draws all return 0. -/
def sDraws0 : ScoringDraws := ⟨0, 0, 0, 0, 0, 0, 0, 0, 0, 0, 0, 0⟩

/-- Per-candidate draws that all return 0. -/
def recDrawsZero : RecItemDraws := ⟨0, 0, 0, 0, 0, 0, 0, 0, 0, 0, 0, 0, 0⟩

/-- A by-location recommendation request for two results, no filters. -/
def recForm2 : RecommendationForm :=
  { search_type := "location", property_id := none, location := none,
    address := some "Chicago", radius_km := some 10,
    max_recommendations := 2, recommendation_type := "hybrid",
    user_preferences := none }

/-- Draw streams giving candidate 0 similarity 0.6 and candidate 1
similarity 0.8. -/
def recDrawsC4 : ℕ → RecItemDraws :=
  fun i => if i = 0 then recDrawsZero else
    { recDrawsZero with simDraw := 1/2 }

/-- A one-result request demanding at least six bedrooms. -/
def recFormMinBeds : RecommendationForm :=
  { search_type := "location", property_id := none, location := none,
    address := some "Chicago", radius_km := some 10,
    max_recommendations := 1, recommendation_type := "hybrid",
    user_preferences := some
      { min_beds := some 6, max_beds := none, min_baths := none,
        max_baths := none, min_price := none, max_price := none,
        property_type := none, min_sqft := none, max_sqft := none } }

/-- A land-analysis call whose draws all return 0. -/
def landDraws0 : LandDraws := ⟨0, 0, 0, 0, 0, 0, 0, 0, 0, 0, 0⟩

/-! ## Helper lemmas -/

theorem toFixed_nonneg (d : ℕ) {q : ℚ} (h : 0 ≤ q) : 0 ≤ toFixed d q := by
  unfold toFixed
  have hfl : (0 : ℤ) ≤ ⌊q * 10 ^ d + 1/2⌋ := by
    rw [Int.le_floor]
    push_cast
    positivity
  have : (0 : ℚ) ≤ (⌊q * 10 ^ d + 1/2⌋ : ℚ) := by exact_mod_cast hfl
  positivity

theorem toFixed_le_one (d : ℕ) {q : ℚ} (h : q < 1) : toFixed d q ≤ 1 := by
  unfold toFixed
  have hp : (0 : ℚ) < 10 ^ d := by positivity
  have hfl : ⌊q * 10 ^ d + 1/2⌋ ≤ (10 ^ d : ℤ) := by
    rw [Int.floor_le_iff]
    push_cast
    nlinarith
  have hcast : (⌊q * 10 ^ d + 1/2⌋ : ℚ) ≤ (10 : ℚ) ^ d := by exact_mod_cast hfl
  rw [div_le_one hp]
  exact hcast

theorem mem_insertDescBySim {a x : PropertyRecommendation} :
    ∀ {l : List PropertyRecommendation},
      a ∈ insertDescBySim x l ↔ a = x ∨ a ∈ l
  | [] => by simp [insertDescBySim]
  | y :: ys => by
      unfold insertDescBySim
      split
      · simp [mem_insertDescBySim (l := ys), or_left_comm]
      · simp

theorem pairwise_insertDescBySim {x : PropertyRecommendation}
    {l : List PropertyRecommendation}
    (h : l.Pairwise (fun a b => b.similarity_score ≤ a.similarity_score)) :
    (insertDescBySim x l).Pairwise
      (fun a b => b.similarity_score ≤ a.similarity_score) := by
  induction l with
  | nil => simp [insertDescBySim]
  | cons y ys ih =>
      rw [List.pairwise_cons] at h
      unfold insertDescBySim
      split
      · rename_i hlt
        rw [List.pairwise_cons]
        refine ⟨?_, ih h.2⟩
        intro b hb
        rcases mem_insertDescBySim.mp hb with rfl | hb
        · exact le_of_lt hlt
        · exact h.1 b hb
      · rename_i hge
        rw [List.pairwise_cons]
        refine ⟨?_, List.pairwise_cons.mpr h⟩
        intro b hb
        rcases List.mem_cons.mp hb with rfl | hb
        · exact le_of_not_lt hge
        · exact le_trans (h.1 b hb) (le_of_not_lt hge)

theorem pairwise_sortDescBySim :
    ∀ l : List PropertyRecommendation,
      (sortDescBySim l).Pairwise
        (fun a b => b.similarity_score ≤ a.similarity_score)
  | [] => by simp [sortDescBySim]
  | x :: xs => by
      unfold sortDescBySim
      exact pairwise_insertDescBySim (pairwise_sortDescBySim xs)

theorem perm_insertDescBySim (x : PropertyRecommendation) :
    ∀ l : List PropertyRecommendation, List.Perm (insertDescBySim x l) (x :: l)
  | [] => List.Perm.refl _
  | y :: ys => by
      unfold insertDescBySim
      split
      · exact ((perm_insertDescBySim x ys).cons y).trans (List.Perm.swap x y ys)
      · exact List.Perm.refl _

theorem perm_sortDescBySim :
    ∀ l : List PropertyRecommendation, List.Perm (sortDescBySim l) l
  | [] => List.Perm.refl _
  | x :: xs => by
      unfold sortDescBySim
      exact (perm_insertDescBySim x (sortDescBySim xs)).trans
        ((perm_sortDescBySim xs).cons x)

theorem length_sortDescBySim (l : List PropertyRecommendation) :
    (sortDescBySim l).length = l.length :=
  (perm_sortDescBySim l).length_eq

/-! ## Claim theorems -/

/-- C9: the base property value is independent of the address: for any two
property inputs agreeing on sqft, bedrooms, bathrooms and yearBuilt,
`calculateBaseValue` returns equal values (the per-location base price is
looked up but never used in the returned expression). -/
theorem C9_base_value_location_independent (d d' : PropertyData)
    (hsq : d.sqft = d'.sqft) (hbe : d.bedrooms = d'.bedrooms)
    (hba : d.bathrooms = d'.bathrooms) (hyr : d.yearBuilt = d'.yearBuilt) :
    calculateBaseValue d = calculateBaseValue d' := by
  unfold calculateBaseValue
  rw [hsq, hbe, hba, hyr]

theorem C9_witness :
    pd0.sqft = pdEvanston.sqft ∧ pd0.bedrooms = pdEvanston.bedrooms ∧
    pd0.bathrooms = pdEvanston.bathrooms ∧
    pd0.yearBuilt = pdEvanston.yearBuilt ∧
    calculateBaseValue pd0 = calculateBaseValue pdEvanston :=
  ⟨rfl, rfl, rfl, rfl,
    C9_base_value_location_independent pd0 pdEvanston rfl rfl rfl rfl⟩

/-- C8: every land-analysis response carries a recommendation verdict that
is one of exactly the three values buy, hold, avoid (the verdict is a
two-branch conditional over those three literals). -/
theorem C8_verdict_one_of_three (locationMatch : Option String)
    (rd : LandDraws) :
    (generateLandAnalysisResponse locationMatch rd).recommendation = "buy" ∨
    (generateLandAnalysisResponse locationMatch rd).recommendation = "hold" ∨
    (generateLandAnalysisResponse locationMatch rd).recommendation = "avoid" := by
  unfold generateLandAnalysisResponse
  dsimp only
  split_ifs <;> simp

/-- C10: the land-analysis verdict is the fixed threshold function of the
generated overall score (buy exactly when the score is at least 80, hold
exactly when it is in [65, 80), avoid exactly when it is below 65), and the
generated score, 60 plus 40 times the draw, always lies in [60, 100); hence
an avoid verdict can only occur for scores in [60, 65). -/
theorem C10_verdict_thresholds (locationMatch : Option String)
    (rd : LandDraws) (h : IsDraw rd.overallDraw) :
    ((generateLandAnalysisResponse locationMatch rd).recommendation = "buy" ↔
      80 ≤ rd.overallDraw * 40 + 60) ∧
    ((generateLandAnalysisResponse locationMatch rd).recommendation = "hold" ↔
      (65 ≤ rd.overallDraw * 40 + 60 ∧ rd.overallDraw * 40 + 60 < 80)) ∧
    ((generateLandAnalysisResponse locationMatch rd).recommendation = "avoid" ↔
      rd.overallDraw * 40 + 60 < 65) ∧
    60 ≤ rd.overallDraw * 40 + 60 ∧ rd.overallDraw * 40 + 60 < 100 := by
  obtain ⟨h0, h1⟩ := h
  unfold generateLandAnalysisResponse
  dsimp only
  split_ifs with hb hh
  · refine ⟨?_, ?_, ?_, by linarith, by linarith⟩
    · exact ⟨fun _ => hb, fun _ => rfl⟩
    · exact ⟨fun hco => absurd hco (by decide),
        fun hco => absurd hco.2 (not_lt.mpr hb)⟩
    · exact ⟨fun hco => absurd hco (by decide),
        fun hco => absurd hco (not_lt.mpr (by linarith))⟩
  · refine ⟨?_, ?_, ?_, by linarith, by linarith⟩
    · exact ⟨fun hco => absurd hco (by decide), fun hco => absurd hco hb⟩
    · exact ⟨fun _ => ⟨hh, not_le.mp hb⟩, fun _ => rfl⟩
    · exact ⟨fun hco => absurd hco (by decide),
        fun hco => absurd hco (not_lt.mpr hh)⟩
  · refine ⟨?_, ?_, ?_, by linarith, by linarith⟩
    · exact ⟨fun hco => absurd hco (by decide), fun hco => absurd hco hb⟩
    · exact ⟨fun hco => absurd hco (by decide), fun hco => absurd hco.1 hh⟩
    · exact ⟨fun _ => not_le.mp hh, fun _ => rfl⟩

theorem C10_witness :
    IsDraw landDraws0.overallDraw ∧
    (((generateLandAnalysisResponse (some "Chicago") landDraws0).recommendation
        = "buy" ↔ 80 ≤ landDraws0.overallDraw * 40 + 60) ∧
     ((generateLandAnalysisResponse (some "Chicago") landDraws0).recommendation
        = "hold" ↔ (65 ≤ landDraws0.overallDraw * 40 + 60 ∧
          landDraws0.overallDraw * 40 + 60 < 80)) ∧
     ((generateLandAnalysisResponse (some "Chicago") landDraws0).recommendation
        = "avoid" ↔ landDraws0.overallDraw * 40 + 60 < 65) ∧
     60 ≤ landDraws0.overallDraw * 40 + 60 ∧
     landDraws0.overallDraw * 40 + 60 < 100) :=
  ⟨by constructor <;> norm_num [landDraws0],
   C10_verdict_thresholds (some "Chicago") landDraws0
     (by constructor <;> norm_num [landDraws0])⟩

/-- C7: for every valid valuation input (all call-time draws in [0, 1)),
the returned value uncertainty is non-negative and the returned confidence
scores, both of the page mock and of the NVAPI simulation, lie in [0, 1]. -/
theorem C7_uncertainty_confidence_bounds (data : PropertyValuationForm)
    (d : PropertyData) (vd : ValuationDraws) (nd : NvDraws)
    (hu : IsDraw vd.uncertaintyDraw) (hc : IsDraw vd.confidenceDraw)
    (hn : IsDraw nd.confidenceDraw) :
    0 ≤ (mockValuationResult data vd).value_uncertainty ∧
    0 ≤ (mockValuationResult data vd).confidence_score ∧
    (mockValuationResult data vd).confidence_score ≤ 1 ∧
    0 ≤ (simulatePropertyValuation d nd).confidence ∧
    (simulatePropertyValuation d nd).confidence ≤ 1 := by
  obtain ⟨hu0, hu1⟩ := hu
  obtain ⟨hc0, hc1⟩ := hc
  obtain ⟨hn0, hn1⟩ := hn
  refine ⟨?_, ?_, ?_, ?_, ?_⟩
  · simp only [mockValuationResult]
    linarith
  · simp only [mockValuationResult]
    norm_num
    linarith
  · simp only [mockValuationResult]
    norm_num
    linarith
  · simp only [simulatePropertyValuation]
    exact toFixed_nonneg 2 (by linarith)
  · simp only [simulatePropertyValuation]
    exact toFixed_le_one 2 (by linarith)

theorem C7_witness :
    IsDraw vDraws0.uncertaintyDraw ∧ IsDraw vDraws0.confidenceDraw ∧
    IsDraw nvDraws0.confidenceDraw ∧
    (0 ≤ (mockValuationResult vForm0 vDraws0).value_uncertainty ∧
     0 ≤ (mockValuationResult vForm0 vDraws0).confidence_score ∧
     (mockValuationResult vForm0 vDraws0).confidence_score ≤ 1 ∧
     0 ≤ (simulatePropertyValuation pd0 nvDraws0).confidence ∧
     (simulatePropertyValuation pd0 nvDraws0).confidence ≤ 1) :=
  ⟨by constructor <;> norm_num [vDraws0],
   by constructor <;> norm_num [vDraws0],
   by constructor <;> norm_num [nvDraws0],
   C7_uncertainty_confidence_bounds vForm0 pd0 vDraws0 nvDraws0
     (by constructor <;> norm_num [vDraws0])
     (by constructor <;> norm_num [vDraws0])
     (by constructor <;> norm_num [nvDraws0])⟩

/-- C1 (counterexample): two property-valuation calls with the identical
default property input but different call-time `Math.random()` draws (all 0
versus all 1/2) disagree on predicted value, value uncertainty and
confidence score, and the NVAPI simulation likewise disagrees on its
confidence — the operation is not deterministic across calls. -/
theorem C1_counterexample :
    (mockValuationResult vForm0 vDraws0).predicted_value ≠
      (mockValuationResult vForm0 vDrawsHalf).predicted_value ∧
    (mockValuationResult vForm0 vDraws0).value_uncertainty ≠
      (mockValuationResult vForm0 vDrawsHalf).value_uncertainty ∧
    (mockValuationResult vForm0 vDraws0).confidence_score ≠
      (mockValuationResult vForm0 vDrawsHalf).confidence_score ∧
    (simulatePropertyValuation pd0 nvDraws0).confidence ≠
      (simulatePropertyValuation pd0 nvDrawsHalf).confidence := by
  refine ⟨?_, ?_, ?_, ?_⟩ <;>
    norm_num [mockValuationResult, simulatePropertyValuation, toFixed,
      vDraws0, vDrawsHalf, nvDraws0, nvDrawsHalf]

/-- C1 (amended): the valuation operations are deterministic only in the
pair (input, call-time draws).  Across two calls with identical input the
deterministic fields always agree — price per sqft and the whole explanation
in the page mock, the estimated value in the NVAPI simulation — while
predicted value, value uncertainty and confidence score of the page mock
agree exactly when the corresponding random draws coincide. -/
theorem C1_determinism_amended :
    (∀ (data : PropertyValuationForm) (rd rd' : ValuationDraws),
        (mockValuationResult data rd).price_per_sqft =
          (mockValuationResult data rd').price_per_sqft ∧
        (mockValuationResult data rd).explanation =
          (mockValuationResult data rd').explanation) ∧
    (∀ (d : PropertyData) (nd nd' : NvDraws),
        (simulatePropertyValuation d nd).estimatedValue =
          (simulatePropertyValuation d nd').estimatedValue) ∧
    (∀ (data : PropertyValuationForm) (rd rd' : ValuationDraws),
        ((mockValuationResult data rd).predicted_value =
            (mockValuationResult data rd').predicted_value ∧
         (mockValuationResult data rd).value_uncertainty =
            (mockValuationResult data rd').value_uncertainty ∧
         (mockValuationResult data rd).confidence_score =
            (mockValuationResult data rd').confidence_score) ↔
        (rd.valueDraw = rd'.valueDraw ∧
         rd.uncertaintyDraw = rd'.uncertaintyDraw ∧
         rd.confidenceDraw = rd'.confidenceDraw)) := by
  refine ⟨fun data rd rd' => ⟨rfl, rfl⟩, fun d nd nd' => rfl,
    fun data rd rd' => ?_⟩
  simp only [mockValuationResult]
  constructor
  · rintro ⟨h1, h2, h3⟩
    exact ⟨by linarith, by linarith, by linarith⟩
  · rintro ⟨h1, h2, h3⟩
    rw [h1, h2, h3]
    exact ⟨rfl, rfl, rfl⟩

/-- C2 (counterexample): with all five weights 1 (so at least one positive
weight) and all draws 0, the mock overall score is 65 while the normalized
weighted sum of the five component scores is (70+80+60+85+75)/5 = 74, so the
overall score is not the documented formula. -/
theorem C2_counterexample :
    0 < sFormOnes.custom_weights.value ∧
    (mockScoringResult sFormOnes sDraws0).overall_score = 65 ∧
    ¬ WeightedNormalizedSum (mockScoringResult sFormOnes sDraws0) := by
  refine ⟨by norm_num [sFormOnes], by norm_num [mockScoringResult, sDraws0], ?_⟩
  norm_num [WeightedNormalizedSum, mockScoringResult, sFormOnes, sDraws0]

/-- C2 (amended): for every weight vector with at least one positive weight
the mock overall score lies in [0, 100] — indeed in [65, 95) — but it is an
independent call-time draw, not the normalized weighted sum of the five
component scores. -/
theorem C2_overall_range_amended (data : BeneficiaryScoringForm)
    (rd : ScoringDraws)
    (hw : 0 < data.custom_weights.value ∨ 0 < data.custom_weights.school ∨
      0 < data.custom_weights.crime_inv ∨ 0 < data.custom_weights.env_inv ∨
      0 < data.custom_weights.employer_proximity)
    (h : IsDraw rd.overallDraw) :
    0 ≤ (mockScoringResult data rd).overall_score ∧
    (mockScoringResult data rd).overall_score ≤ 100 ∧
    65 ≤ (mockScoringResult data rd).overall_score ∧
    (mockScoringResult data rd).overall_score < 95 := by
  obtain ⟨h0, h1⟩ := h
  simp only [mockScoringResult]
  exact ⟨by linarith, by linarith, by linarith, by linarith⟩

theorem C2_witness :
    (0 < sFormOnes.custom_weights.value ∨ 0 < sFormOnes.custom_weights.school ∨
      0 < sFormOnes.custom_weights.crime_inv ∨
      0 < sFormOnes.custom_weights.env_inv ∨
      0 < sFormOnes.custom_weights.employer_proximity) ∧
    IsDraw sDraws0.overallDraw ∧
    (0 ≤ (mockScoringResult sFormOnes sDraws0).overall_score ∧
     (mockScoringResult sFormOnes sDraws0).overall_score ≤ 100 ∧
     65 ≤ (mockScoringResult sFormOnes sDraws0).overall_score ∧
     (mockScoringResult sFormOnes sDraws0).overall_score < 95) :=
  ⟨Or.inl (by norm_num [sFormOnes]),
   by constructor <;> norm_num [sDraws0],
   C2_overall_range_amended sFormOnes sDraws0 (Or.inl (by norm_num [sFormOnes]))
     (by constructor <;> norm_num [sDraws0])⟩

/-- C3 (counterexample): at the default valuation input with all draws 0,
the final predicted value is 275000 while base value plus the signed sum of
all listed attributions is 192500 + 74000 = 266500, an absolute gap of 8500
far beyond the 1e-3 relative tolerance of 275. -/
theorem C3_counterexample :
    (mockValuationResult vForm0 vDraws0).explanation.base_value +
      attributionSum (mockValuationResult vForm0 vDraws0).explanation =
        266500 ∧
    (mockValuationResult vForm0 vDraws0).predicted_value = 275000 ∧
    ¬ |((mockValuationResult vForm0 vDraws0).explanation.base_value +
          attributionSum (mockValuationResult vForm0 vDraws0).explanation) -
        (mockValuationResult vForm0 vDraws0).predicted_value| ≤
      (1/1000) * (mockValuationResult vForm0 vDraws0).predicted_value := by
  have h1 : (mockValuationResult vForm0 vDraws0).explanation.base_value +
      attributionSum (mockValuationResult vForm0 vDraws0).explanation =
        266500 := by
    simp only [mockValuationResult, attributionSum]
    norm_num
  have h2 : (mockValuationResult vForm0 vDraws0).predicted_value = 275000 := by
    simp only [mockValuationResult, vDraws0]
    norm_num
  refine ⟨h1, h2, ?_⟩
  rw [h1, h2]
  rw [show |(266500 : ℚ) - 275000| = 8500 by
    rw [abs_sub_comm, abs_of_nonneg] <;> norm_num]
  norm_num

/-- C3 (amended): the mock explanation never reconciles: for every input and
all draws, base value plus the signed sum of all listed attributions is the
constant 266500 while the explanation prediction value is 275000, so the
additive decomposition always misses by 8500, beyond the 1e-3 relative
tolerance. -/
theorem C3_reconciliation_gap_amended (data : PropertyValuationForm)
    (rd : ValuationDraws) :
    (mockValuationResult data rd).explanation.base_value +
      attributionSum (mockValuationResult data rd).explanation = 266500 ∧
    (mockValuationResult data rd).explanation.prediction_value = 275000 ∧
    ¬ |((mockValuationResult data rd).explanation.base_value +
          attributionSum (mockValuationResult data rd).explanation) -
        (mockValuationResult data rd).explanation.prediction_value| ≤
      (1/1000) *
        (mockValuationResult data rd).explanation.prediction_value := by
  have h1 : (mockValuationResult data rd).explanation.base_value +
      attributionSum (mockValuationResult data rd).explanation = 266500 := by
    simp only [mockValuationResult, attributionSum]
    norm_num
  refine ⟨h1, rfl, ?_⟩
  rw [h1, show (mockValuationResult data rd).explanation.prediction_value =
    275000 from rfl]
  rw [show |(266500 : ℚ) - 275000| = 8500 by
    rw [abs_sub_comm, abs_of_nonneg] <;> norm_num]
  norm_num

/-- C6 (counterexample): with all five custom weights 0 the scoring call
does not fail: it returns the normal mock score result and no error value
exists. -/
theorem C6_counterexample :
    beneficiaryScore sFormZero sDraws0 =
      Except.ok (mockScoringResult sFormZero sDraws0) ∧
    ¬ ∃ e, beneficiaryScore sFormZero sDraws0 = Except.error e := by
  refine ⟨rfl, ?_⟩
  rintro ⟨e, he⟩
  simp [beneficiaryScore] at he

/-- C6 (amended): with all five custom weights 0 the scoring operation
succeeds with a normal score result — the mock validates nothing and never
divides by the weight sum, so there is no division-by-zero crash; all five
weighted score components are 0 and the overall score still lies in
[0, 100]. -/
theorem C6_zero_weights_amended (rd : ScoringDraws)
    (h : IsDraw rd.overallDraw) :
    ∃ res, beneficiaryScore sFormZero rd = Except.ok res ∧
      0 ≤ res.overall_score ∧ res.overall_score ≤ 100 ∧
      res.score_components.value = 0 ∧ res.score_components.school = 0 ∧
      res.score_components.crime = 0 ∧ res.score_components.env = 0 ∧
      res.score_components.employer = 0 := by
  obtain ⟨h0, h1⟩ := h
  refine ⟨mockScoringResult sFormZero rd, rfl, ?_, ?_, ?_, ?_, ?_, ?_, ?_⟩ <;>
    simp [mockScoringResult, sFormZero] <;> linarith

theorem C6_witness :
    IsDraw sDraws0.overallDraw ∧
    (∃ res, beneficiaryScore sFormZero sDraws0 = Except.ok res ∧
      0 ≤ res.overall_score ∧ res.overall_score ≤ 100 ∧
      res.score_components.value = 0 ∧ res.score_components.school = 0 ∧
      res.score_components.crime = 0 ∧ res.score_components.env = 0 ∧
      res.score_components.employer = 0) :=
  ⟨by constructor <;> norm_num [sDraws0],
   C6_zero_weights_amended sDraws0 (by constructor <;> norm_num [sDraws0])⟩

theorem sortDescBySim_pair (a b : PropertyRecommendation)
    (h : a.similarity_score < b.similarity_score) :
    sortDescBySim [a, b] = [b, a] := by
  simp [sortDescBySim, insertDescBySim, h]

theorem sortDescBySim_pair_tie (a b : PropertyRecommendation)
    (h : a.similarity_score = b.similarity_score) :
    sortDescBySim [a, b] = [a, b] := by
  have hnot : ¬ a.similarity_score < b.similarity_score := not_lt.mpr h.ge
  simp [sortDescBySim, insertDescBySim, hnot]

/-- C4 (counterexample): with two candidates whose similarity draws are 0
and 1/2 (similarities 0.6 and 0.8), the stable sort reorders the list to
[candidate 1, candidate 0] while the rank positions were assigned from the
generation indices before sorting, so the returned ranks read [2, 1]: they
do not start at 1 and do not increase in result order. -/
theorem C4_counterexample :
    ¬ RanksStartAt1StrictMono
      ((onSubmitRecommendations recForm2 recDrawsC4).map
        (fun x => x.rank_position)) := by
  have hsims : (mkRecommendation recForm2 0 (recDrawsC4 0)).similarity_score <
      (mkRecommendation recForm2 1 (recDrawsC4 1)).similarity_score := by
    simp only [mkRecommendation, recDrawsC4, recDrawsZero]
    norm_num
  have hlist : onSubmitRecommendations recForm2 recDrawsC4 =
      [mkRecommendation recForm2 1 (recDrawsC4 1),
       mkRecommendation recForm2 0 (recDrawsC4 0)] := by
    unfold onSubmitRecommendations
    rw [show List.range recForm2.max_recommendations = [0, 1] from rfl]
    simp only [List.map]
    exact sortDescBySim_pair _ _ hsims
  rw [hlist]
  rintro ⟨h1, h2⟩
  simp only [mkRecommendation, List.map] at h1
  rcases h1 with h1 | h1
  · simp at h1
  · simp at h1

/-- C4 (amended): similarity scores are non-increasing in result order, but
rank positions are assigned from the generation index before sorting: the
returned rank positions are only a permutation of 1..n (one plus each index
of the generated range), not necessarily starting at 1 or increasing in
result order. -/
theorem C4_rank_permutation_amended (form : RecommendationForm)
    (rds : ℕ → RecItemDraws) :
    (onSubmitRecommendations form rds).Pairwise
      (fun a b => b.similarity_score ≤ a.similarity_score) ∧
    List.Perm
      ((onSubmitRecommendations form rds).map (fun x => x.rank_position))
      (List.map (fun i : ℕ => (i : ℤ) + 1)
        (List.range form.max_recommendations)) := by
  constructor
  · exact pairwise_sortDescBySim _
  · have hp := (perm_sortDescBySim
      ((List.range form.max_recommendations).map
        (fun i => mkRecommendation form i (rds i)))).map
      (fun x => x.rank_position)
    unfold onSubmitRecommendations
    refine hp.trans ?_
    rw [List.map_map]
    have hfun : ((fun x => x.rank_position) ∘
        fun i => mkRecommendation form i (rds i)) =
        (fun i : ℕ => (i : ℤ) + 1) := funext fun i => rfl
    rw [hfun]

/-- C5 (counterexample): a request demanding at least six bedrooms still
receives a generated candidate with two bedrooms: the mock applies no
preference filter before (or after) ranking. -/
theorem C5_counterexample :
    ∃ x ∈ onSubmitRecommendations recFormMinBeds (fun _ => recDrawsZero),
      ViolatesHardFilter recFormMinBeds.user_preferences
        x.recommended_property := by
  have hlist : onSubmitRecommendations recFormMinBeds (fun _ => recDrawsZero) =
      [mkRecommendation recFormMinBeds 0 recDrawsZero] := by
    unfold onSubmitRecommendations
    rw [show List.range recFormMinBeds.max_recommendations = [0] from rfl]
    simp only [List.map]
    rfl
  refine ⟨mkRecommendation recFormMinBeds 0 recDrawsZero, ?_, ?_⟩
  · rw [hlist]
    exact List.mem_singleton.mpr rfl
  · simp only [ViolatesHardFilter, recFormMinBeds]
    refine Or.inl ⟨6, rfl, ?_⟩
    simp only [mkRecommendation, recDrawsZero]
    norm_num [jsFloor]

/-- C5 (amended): the recommender always returns exactly
`max_recommendations` results (hence never more), but hard preference
filters are not applied: candidates violating them can be returned, as the
counterexample shows. -/
theorem C5_count_amended (form : RecommendationForm)
    (rds : ℕ → RecItemDraws) :
    (onSubmitRecommendations form rds).length = form.max_recommendations := by
  unfold onSubmitRecommendations
  rw [length_sortDescBySim, List.length_map, List.length_range]
